import Mathlib

/-!
Verification of the maiko actor runtime (shallow embedding).

Each definition below embeds a function of the Rust source, named after it.
Machine addresses (`Arc` pointers) are modelled as allocation counters:
cloning an `Arc` keeps the counter, a fresh allocation gets a fresh counter.
Where the source iterates a `HashMap` in arbitrary order, the embedding fixes
first-insertion order; all facts proved below depend only on membership and
on list lengths, which are order independent.
-/

namespace Maiko

/-- Model of `ActorId` (src/maiko/src/actor_id.rs): a newtype over `Arc<str>`.
`alloc` is the identity of the `Arc` allocation, `name` the string content. -/
structure ActorId where
  alloc : Nat
  name : String
deriving Repr, DecidableEq

/-- `impl PartialEq for ActorId` (actor_id.rs:40-44): `Arc::ptr_eq`,
i.e. equality of the allocation, not of the content. -/
def ActorId.ptrEq (a b : ActorId) : Bool :=
  a.alloc == b.alloc

/-- `#[derive(Clone)]` on `ActorId`: cloning the `Arc` handle shares
the allocation. -/
def ActorId.clone (a : ActorId) : ActorId := a

/-- `impl Hash for ActorId` (actor_id.rs:54-58): `self.0.hash(state)` hashes the
string content only; modelled parametrically in the string hasher. -/
def ActorId.hashWith (h : String → UInt64) (a : ActorId) : UInt64 :=
  h a.name

/-- `ActorId::new(Arc::<str>::from(name))` as performed by
`Supervisor::create_context` (supervisor.rs:212-218): `Arc::<str>::from`
makes a fresh allocation, modelled by a fresh allocation counter. -/
def ActorId.fresh (allocCounter : Nat) (name : String) : ActorId :=
  ⟨allocCounter, name⟩

/-- `OverflowPolicy` (src/maiko/src/overflow_policy.rs). -/
inductive OverflowPolicy where
  | fail
  | drop
  | block
deriving Repr, DecidableEq

/-- `Subscription` (src/maiko/src/internal/subscription.rs). -/
inductive Subscription (T : Type) where
  | all
  | topics (ts : List T)
  | none
deriving Repr, DecidableEq

/-- `Subscription::contains` (subscription.rs:18-24). -/
def Subscription.containsTopic [BEq T] : Subscription T → T → Bool
  | .all, _ => true
  | .topics ts, t => ts.contains t
  | .none, _ => false

/-- A bounded mpsc mailbox as the broker sees it: capacity, number of queued
envelopes, and whether the receiving side is closed. -/
structure Mailbox where
  cap : Nat
  len : Nat
  closed : Bool
deriving Repr, DecidableEq

/-- `tokio Sender::try_send` succeeds exactly when the channel is open and
below capacity. -/
def Mailbox.trySendOk (m : Mailbox) : Bool :=
  !m.closed && m.len < m.cap

/-- `Subscriber` (src/maiko/src/internal/subscriber.rs): broker-side record of
one actor. -/
structure Subscriber (T : Type) where
  actorId : ActorId
  topics : Subscription T
  mailbox : Mailbox
deriving Repr, DecidableEq

/-- `impl PartialEq for Subscriber` (subscriber.rs:32-36): compares the
`actor_id` fields, hence `Arc::ptr_eq` on the names. -/
def Subscriber.beq (a b : Subscriber T) : Bool :=
  a.actorId.ptrEq b.actorId

/-- `Subscriber::is_closed` (subscriber.rs:27-29). -/
def Subscriber.isClosed (s : Subscriber T) : Bool :=
  s.mailbox.closed

/-- The error cases of `Error` (src/maiko/src/error.rs) relevant to
registration. -/
inductive MError where
  | subscriberAlreadyExists (id : ActorId)
  | brokerAlreadyStarted
  | external (tag : Nat)
deriving Repr, DecidableEq

/-- `Broker::add_subscriber` (src/maiko/src/internal/broker.rs:45-51):
reject when `self.subscribers.contains(&subscriber)` (via `Subscriber`
`PartialEq`, i.e. `ActorId` pointer equality), else push. -/
def Broker.addSubscriber (subs : List (Subscriber T)) (s : Subscriber T) :
    Except MError (List (Subscriber T)) :=
  if subs.any (fun x => Subscriber.beq x s) then
    .error (.subscriberAlreadyExists s.actorId)
  else
    .ok (subs ++ [s])

/-- The supervisor state that registration touches (supervisor.rs):
the allocation counter models the heap, `brokerStarted` models whether the
broker mutex is held by the broker task. -/
structure SupervisorState (T : Type) where
  nextAlloc : Nat
  subscribers : List (Subscriber T)
  brokerStarted : Bool
deriving Repr, DecidableEq

/-- `Supervisor::create_context` (supervisor.rs:212-218): builds a `Context`
whose `actor_id` is `ActorId::new(Arc::<str>::from(name))` — a fresh
allocation on every call. -/
def Supervisor.createContext (st : SupervisorState T) (name : String) :
    ActorId × SupervisorState T :=
  (ActorId.fresh st.nextAlloc name, { st with nextAlloc := st.nextAlloc + 1 })

/-- `Supervisor::add_actor` → `build_actor` → `register_actor`
(supervisor.rs:130-207): make a context (fresh `ActorId`), fail with
`BrokerAlreadyStarted` when the broker mutex is taken, allocate a mailbox of
`config.channel_size`, and register the subscriber with the broker. -/
def Supervisor.addActor [DecidableEq T] (st : SupervisorState T) (name : String)
    (topics : Subscription T) (channelSize : Nat) :
    SupervisorState T × Except MError ActorId :=
  let p := Supervisor.createContext st name
  let actorId := p.1
  let st := p.2
  if st.brokerStarted then
    (st, .error .brokerAlreadyStarted)
  else
    let sub : Subscriber T := ⟨actorId, topics, ⟨channelSize, 0, false⟩⟩
    match Broker.addSubscriber st.subscribers sub with
    | .error e => (st, .error e)
    | .ok subs => ({ st with subscribers := subs }, .ok actorId)

/-- A fresh supervisor: no subscribers, broker not yet started. -/
def SupervisorState.init : SupervisorState Unit :=
  ⟨0, [], false⟩

/-- `Envelope` plus its `Meta` (src/maiko/src/envelope.rs, meta.rs): unique id,
sending actor, optional correlation id, payload. -/
structure Envelope (E : Type) where
  id : Nat
  sender : ActorId
  correlation : Option Nat
  event : E
deriving Repr, DecidableEq

/-- The monitoring events `Broker::send_event` can emit
(src/maiko/src/monitoring/monitoring_event.rs): `EventDispatched` on a
successful `try_send`, `Overflow` on a full mailbox. -/
inductive BrokerMonEvent where
  | dispatched (receiver : ActorId)
  | overflow (receiver : ActorId) (policy : OverflowPolicy)
deriving Repr, DecidableEq

/-- The per-envelope accumulators of `Broker::send_event`
(broker.rs:57-129): mailboxes the envelope was placed into by `try_send`,
deferred Block-policy sends (awaited via `join_all` before the function
returns), subscribers marked for closing under the Fail policy, and the
monitoring events sent. -/
structure SendResult where
  delivered : List ActorId
  blocked : List ActorId
  toBeClosed : List ActorId
  monEvents : List BrokerMonEvent
deriving Repr, DecidableEq

def SendResult.empty : SendResult := ⟨[], [], [], []⟩

def SendResult.append (a b : SendResult) : SendResult :=
  ⟨a.delivered ++ b.delivered, a.blocked ++ b.blocked,
   a.toBeClosed ++ b.toBeClosed, a.monEvents ++ b.monEvents⟩

/-- The three `.filter` clauses of the subscriber loop in `Broker::send_event`
(broker.rs:73-79): subscription contains the topic, mailbox not closed, and
the subscriber's actor id differs (by `Arc::ptr_eq`) from the envelope's
sender. -/
def subscriberSelected [BEq T] (topic : T) (e : Envelope E) (s : Subscriber T) :
    Bool :=
  s.topics.containsTopic topic && !s.isClosed && !(s.actorId.ptrEq e.sender)

/-- The body of the subscriber loop in `Broker::send_event` (broker.rs:80-121)
for one selected subscriber: `try_send`, and on a full mailbox emit an
`Overflow` monitoring event (when monitoring is active) then apply the
topic's overflow policy. -/
def processSubscriber (policy : OverflowPolicy) (isActive : Bool)
    (s : Subscriber T) : SendResult :=
  if s.mailbox.trySendOk then
    ⟨[s.actorId], [], [], if isActive then [.dispatched s.actorId] else []⟩
  else
    let mon : List BrokerMonEvent :=
      if isActive then [.overflow s.actorId policy] else []
    match policy with
    | .fail => ⟨[], [], [s.actorId], mon⟩
    | .drop => ⟨[], [], [], mon⟩
    | .block => ⟨[], [s.actorId], [], mon⟩

/-- `Broker::send_event` (broker.rs:57-129): derive the topic with
`T::from_event`, loop over the filtered subscribers in table order, and
accumulate deliveries, Block-deferred sends, Fail-policy marks and monitoring
events. -/
def sendEvent [BEq T] (fromEvent : E → T) (policyOf : T → OverflowPolicy)
    (isActive : Bool) (e : Envelope E) : List (Subscriber T) → SendResult
  | [] => SendResult.empty
  | s :: rest =>
    let topic := fromEvent e.event
    if subscriberSelected topic e s then
      SendResult.append (processSubscriber (policyOf topic) isActive s)
        (sendEvent fromEvent policyOf isActive e rest)
    else
      sendEvent fromEvent policyOf isActive e rest

/-- One iteration of the event arm of `Broker::run` (broker.rs:155-165):
dispatch the envelope, then — before the next envelope is taken — retain only
the subscribers not marked for closing by the Fail policy. -/
def processEnvelope [BEq T] (fromEvent : E → T) (policyOf : T → OverflowPolicy)
    (isActive : Bool) (subs : List (Subscriber T)) (e : Envelope E) :
    SendResult × List (Subscriber T) :=
  let r := sendEvent fromEvent policyOf isActive e subs
  if r.toBeClosed.isEmpty then
    (r, subs)
  else
    (r, subs.filter (fun s => !(r.toBeClosed.any (fun a => a.ptrEq s.actorId))))

/-- Registering the name "worker" twice on a fresh supervisor. -/
def registerWorkerTwice : SupervisorState Unit × Except MError ActorId :=
  let r1 := Supervisor.addActor SupervisorState.init "worker" .all 128
  Supervisor.addActor r1.1 "worker" .all 128

theorem ActorId.ptrEq_true_iff (a b : ActorId) :
    a.ptrEq b = true ↔ a.alloc = b.alloc := by
  simp [ActorId.ptrEq]

theorem ActorId.ptrEq_symm (a b : ActorId) : a.ptrEq b = b.ptrEq a := by
  simp only [ActorId.ptrEq]
  by_cases h : a.alloc = b.alloc
  · simp [h]
  · simp [h, Ne.symm h]

theorem SendResult.append_assoc (a b c : SendResult) :
    SendResult.append (SendResult.append a b) c =
      SendResult.append a (SendResult.append b c) := by
  simp [SendResult.append]

theorem SendResult.empty_append (a : SendResult) :
    SendResult.append SendResult.empty a = a := by
  simp [SendResult.append, SendResult.empty]

/-- The subscriber loop of `send_event` treats each subscriber independently:
dispatching over a concatenated table is the concatenation of the results. -/
theorem sendEvent_append [BEq T] (fromEvent : E → T)
    (policyOf : T → OverflowPolicy) (isActive : Bool) (e : Envelope E)
    (xs ys : List (Subscriber T)) :
    sendEvent fromEvent policyOf isActive e (xs ++ ys) =
      SendResult.append (sendEvent fromEvent policyOf isActive e xs)
        (sendEvent fromEvent policyOf isActive e ys) := by
  induction xs with
  | nil => simp [sendEvent, SendResult.empty_append]
  | cons s rest ih =>
    by_cases hsel : subscriberSelected (fromEvent e.event) e s = true
    · simp [sendEvent, hsel, ih, SendResult.append_assoc]
    · simp [sendEvent, hsel, ih]

/-- Sender of the C4 witness scenario. -/
def wSender : ActorId := ⟨0, "producer"⟩

/-- A subscriber whose mailbox (capacity 2) is full. -/
def wSlow : Subscriber Unit := ⟨⟨1, "slow"⟩, .all, ⟨2, 2, false⟩⟩

/-- A healthy subscriber listed after the full one. -/
def wOther : Subscriber Unit := ⟨⟨2, "other"⟩, .all, ⟨4, 0, false⟩⟩

/-- The envelope dispatched in the C4 witness scenario. -/
def wEnv : Envelope Unit := ⟨100, wSender, Option.none, ()⟩

end Maiko

/-- C2: no self-delivery. Whatever the subscriber table, the topic map, the
overflow policies and the monitoring state, every mailbox the broker's
dispatch step puts the envelope into — immediately or as an awaited
Block-policy send — belongs to an actor id that differs (by the runtime's
`ActorId` equality) from the envelope's sender. -/
theorem C2_no_self_delivery [BEq T] (fromEvent : E → T)
    (policyOf : T → Maiko.OverflowPolicy) (isActive : Bool)
    (e : Maiko.Envelope E) (subs : List (Maiko.Subscriber T)) :
    (((Maiko.sendEvent fromEvent policyOf isActive e subs).delivered ++
      (Maiko.sendEvent fromEvent policyOf isActive e subs).blocked).all
        (fun a => !(a.ptrEq e.sender))) = true := by
  induction subs with
  | nil => simp [Maiko.sendEvent, Maiko.SendResult.empty]
  | cons s rest ih =>
    by_cases hsel : Maiko.subscriberSelected (fromEvent e.event) e s = true
    · have hne : s.actorId.ptrEq e.sender = false := by
        have h := hsel
        simp only [Maiko.subscriberSelected, Bool.and_eq_true, Bool.not_eq_true'] at h
        exact h.2
      simp only [Maiko.sendEvent, hsel, if_pos, Maiko.SendResult.append]
      simp only [List.all_append, Bool.and_eq_true] at ih ⊢
      refine ⟨?_, ?_⟩
      · rcases ih with ⟨ih1, _⟩
        simp only [Maiko.processSubscriber]
        by_cases htr : s.mailbox.trySendOk = true
        · simp [htr, hne, ih1]
        · simp only [htr]
          cases policyOf (fromEvent e.event) <;> simp [hne, ih1, htr]
      · rcases ih with ⟨_, ih2⟩
        simp only [Maiko.processSubscriber]
        by_cases htr : s.mailbox.trySendOk = true
        · simp [htr, hne, ih2]
        · simp only [htr]
          cases policyOf (fromEvent e.event) <;> simp [hne, ih2, htr]
    · simpa [Maiko.sendEvent, hsel] using ih

/-- C1: the claim says the second `add_actor` with an already-used name returns
`SubscriberAlreadyExists`. Evaluating the embedded registration path at the
failing input shows the opposite: because `create_context` allocates a fresh
`Arc<str>` for every call and `Subscriber` equality is `Arc::ptr_eq`, the
duplicate is not detected — the second call returns `Ok` and the broker's
subscriber table ends up holding two records named "worker". -/
theorem C1_duplicate_name_not_rejected :
    Maiko.registerWorkerTwice.2 = .ok ⟨1, "worker"⟩ ∧
    (Maiko.registerWorkerTwice.1.subscribers.filter
      (fun s => s.actorId.name == "worker")).length = 2 := by
  constructor
  · rfl
  · rfl

/-- C10: `ActorId` equality is pointer identity while its hash is content
based: any two ids built from distinct allocations over the same name compare
unequal yet hash alike under every hasher, and every id compares equal to its
clone. -/
theorem C10_actorid_eq_is_pointer_hash_is_content (h : String → UInt64)
    (a b : Maiko.ActorId) (hname : a.name = b.name) (halloc : a.alloc ≠ b.alloc) :
    Maiko.ActorId.ptrEq a b = false ∧
    Maiko.ActorId.hashWith h a = Maiko.ActorId.hashWith h b ∧
    Maiko.ActorId.ptrEq a (Maiko.ActorId.clone a) = true := by
  refine ⟨?_, ?_, ?_⟩
  · simp [Maiko.ActorId.ptrEq, halloc]
  · simp [Maiko.ActorId.hashWith, hname]
  · simp [Maiko.ActorId.ptrEq, Maiko.ActorId.clone]

/-- Witness for C10: two ids independently built from the name "worker"
(allocations 0 and 1) are unequal but share every hash; a clone is equal. -/
theorem C10_witness :
    (⟨0, "worker"⟩ : Maiko.ActorId).name = (⟨1, "worker"⟩ : Maiko.ActorId).name ∧
    (⟨0, "worker"⟩ : Maiko.ActorId).alloc ≠ (⟨1, "worker"⟩ : Maiko.ActorId).alloc ∧
    (Maiko.ActorId.ptrEq ⟨0, "worker"⟩ ⟨1, "worker"⟩ = false ∧
     Maiko.ActorId.hashWith (fun s => s.length.toUInt64) ⟨0, "worker"⟩ =
       Maiko.ActorId.hashWith (fun s => s.length.toUInt64) ⟨1, "worker"⟩ ∧
     Maiko.ActorId.ptrEq ⟨0, "worker"⟩ (Maiko.ActorId.clone ⟨0, "worker"⟩) = true) := by
  refine ⟨rfl, by decide, ?_⟩
  exact C10_actorid_eq_is_pointer_hash_is_content
    (fun s => s.length.toUInt64) ⟨0, "worker"⟩ ⟨1, "worker"⟩ rfl (by decide)

/-- C4: under the Fail overflow policy a full mailbox only marks its
subscriber. During the dispatch of the current envelope the subscriber is
marked for closing and an `Overflow` monitoring event (policy Fail) is
emitted (monitoring active), the remaining subscribers receive exactly the
deliveries they would receive were the marked subscriber absent, and by the
time `Broker::run` turns to the next envelope the marked subscriber has been
removed from the subscriber table. -/
theorem C4_fail_overflow_marks_then_removes [BEq T] (fromEvent : E → T)
    (policyOf : T → Maiko.OverflowPolicy) (pre post : List (Maiko.Subscriber T))
    (s : Maiko.Subscriber T) (e : Maiko.Envelope E)
    (hopen : s.mailbox.closed = false)
    (hfull : s.mailbox.cap ≤ s.mailbox.len)
    (hsub : s.topics.containsTopic (fromEvent e.event) = true)
    (hnself : s.actorId.ptrEq e.sender = false)
    (hpol : policyOf (fromEvent e.event) = .fail) :
    s.actorId ∈
      (Maiko.sendEvent fromEvent policyOf true e (pre ++ s :: post)).toBeClosed ∧
    Maiko.BrokerMonEvent.overflow s.actorId .fail ∈
      (Maiko.sendEvent fromEvent policyOf true e (pre ++ s :: post)).monEvents ∧
    (Maiko.sendEvent fromEvent policyOf true e (pre ++ s :: post)).delivered =
      (Maiko.sendEvent fromEvent policyOf true e (pre ++ post)).delivered ∧
    (Maiko.sendEvent fromEvent policyOf true e (pre ++ s :: post)).blocked =
      (Maiko.sendEvent fromEvent policyOf true e (pre ++ post)).blocked ∧
    ((Maiko.processEnvelope fromEvent policyOf true (pre ++ s :: post) e).2.all
      (fun x => !(s.actorId.ptrEq x.actorId))) = true := by
  have hsel : Maiko.subscriberSelected (fromEvent e.event) e s = true := by
    simp [Maiko.subscriberSelected, hsub, Maiko.Subscriber.isClosed, hopen, hnself]
  have htr : s.mailbox.trySendOk = false := by
    simp [Maiko.Mailbox.trySendOk, hopen]
    omega
  have hcontrib :
      Maiko.processSubscriber (policyOf (fromEvent e.event)) true s =
        ⟨[], [], [s.actorId], [.overflow s.actorId .fail]⟩ := by
    rw [hpol]
    simp [Maiko.processSubscriber, htr]
  have hsplit :
      Maiko.sendEvent fromEvent policyOf true e (pre ++ s :: post) =
        Maiko.SendResult.append
          (Maiko.sendEvent fromEvent policyOf true e pre)
          (Maiko.SendResult.append
            ⟨[], [], [s.actorId], [.overflow s.actorId .fail]⟩
            (Maiko.sendEvent fromEvent policyOf true e post)) := by
    rw [Maiko.sendEvent_append]
    congr 1
    rw [show Maiko.sendEvent fromEvent policyOf true e (s :: post) =
        Maiko.SendResult.append
          (Maiko.processSubscriber (policyOf (fromEvent e.event)) true s)
          (Maiko.sendEvent fromEvent policyOf true e post) from by
      simp [Maiko.sendEvent, hsel]]
    rw [hcontrib]
  have hmem : s.actorId ∈
      (Maiko.sendEvent fromEvent policyOf true e (pre ++ s :: post)).toBeClosed := by
    rw [hsplit]
    simp [Maiko.SendResult.append]
  refine ⟨hmem, ?_, ?_, ?_, ?_⟩
  · rw [hsplit]
    simp [Maiko.SendResult.append]
  · rw [hsplit, Maiko.sendEvent_append]
    simp [Maiko.SendResult.append]
  · rw [hsplit, Maiko.sendEvent_append]
    simp [Maiko.SendResult.append]
  · have hne :
        (Maiko.sendEvent fromEvent policyOf true e (pre ++ s :: post)).toBeClosed.isEmpty
          = false := by
      rcases h : (Maiko.sendEvent fromEvent policyOf true e
          (pre ++ s :: post)).toBeClosed with _ | _
      · rw [h] at hmem
        simp at hmem
      · simp
    simp only [Maiko.processEnvelope, hne, Bool.false_eq_true, if_false]
    rw [List.all_eq_true]
    intro x hx
    rw [List.mem_filter] at hx
    have hfilter := hx.2
    rw [Bool.not_eq_true'] at hfilter
    rw [List.any_eq_false] at hfilter
    have := hfilter s.actorId hmem
    simpa using this

/-- Witness for C4: the full-mailbox subscriber "slow" is marked and removed
while "other", listed after it, still receives the envelope. -/
theorem C4_witness :
    Maiko.wSlow.mailbox.closed = false ∧
    Maiko.wSlow.mailbox.cap ≤ Maiko.wSlow.mailbox.len ∧
    Maiko.wSlow.topics.containsTopic ((fun _ => ()) Maiko.wEnv.event) = true ∧
    Maiko.wSlow.actorId.ptrEq Maiko.wEnv.sender = false ∧
    ((fun _ => Maiko.OverflowPolicy.fail) ((fun (_ : Unit) => ()) Maiko.wEnv.event)
      = .fail) ∧
    (Maiko.wSlow.actorId ∈
      (Maiko.sendEvent (fun _ => ()) (fun _ => .fail) true Maiko.wEnv
        ([] ++ Maiko.wSlow :: [Maiko.wOther])).toBeClosed ∧
     Maiko.BrokerMonEvent.overflow Maiko.wSlow.actorId .fail ∈
      (Maiko.sendEvent (fun _ => ()) (fun _ => .fail) true Maiko.wEnv
        ([] ++ Maiko.wSlow :: [Maiko.wOther])).monEvents ∧
     (Maiko.sendEvent (fun _ => ()) (fun _ => .fail) true Maiko.wEnv
        ([] ++ Maiko.wSlow :: [Maiko.wOther])).delivered =
      (Maiko.sendEvent (fun _ => ()) (fun _ => .fail) true Maiko.wEnv
        ([] ++ [Maiko.wOther])).delivered ∧
     (Maiko.sendEvent (fun _ => ()) (fun _ => .fail) true Maiko.wEnv
        ([] ++ Maiko.wSlow :: [Maiko.wOther])).blocked =
      (Maiko.sendEvent (fun _ => ()) (fun _ => .fail) true Maiko.wEnv
        ([] ++ [Maiko.wOther])).blocked ∧
     ((Maiko.processEnvelope (fun _ => ()) (fun _ => .fail) true
        ([] ++ Maiko.wSlow :: [Maiko.wOther]) Maiko.wEnv).2.all
        (fun x => !(Maiko.wSlow.actorId.ptrEq x.actorId))) = true) :=
  ⟨rfl, by decide, by decide, by decide, rfl,
   C4_fail_overflow_marks_then_removes (fun _ => ()) (fun _ => .fail)
     [] [Maiko.wOther] Maiko.wSlow Maiko.wEnv rfl (by decide) (by decide)
     (by decide) rfl⟩

namespace Maiko

/-- `StepAction` (src/maiko/src/step_action.rs). -/
inductive StepAction where
  | cont
  | yieldNow
  | awaitEvent
  | backoff (millis : Nat)
  | never
deriving Repr, DecidableEq, BEq

/-- `StepPause` (src/maiko/src/internal/actor_handler.rs:12-18). -/
inductive StepPause where
  | none
  | awaitEvent
  | suppressed
deriving Repr, DecidableEq, BEq

/-- `StepHandler` (actor_handler.rs:20-33): a pending backoff sleep and the
pause state. -/
structure StepHandler where
  backoff : Option Nat
  pause : StepPause
deriving Repr, DecidableEq

/-- `StepHandler::can_step` (actor_handler.rs:30-32). -/
def StepHandler.canStep (h : StepHandler) : Bool :=
  h.backoff.isNone && (h.pause == .none)

/-- `handle_step_action` (actor_handler.rs:149-166): translate a returned
`StepAction` into the step handler's pause state (`Never` maps to
`Suppressed`, which makes `can_step` false). The active select loop of
`ActorHandler::run` never calls this function. -/
def handleStepAction (h : StepHandler) (a : StepAction) : StepHandler :=
  match a with
  | .cont => { h with pause := .none }
  | .yieldNow => { h with pause := .none }
  | .awaitEvent => { h with pause := .awaitEvent }
  | .backoff d => { backoff := some d, pause := .none }
  | .never => { h with pause := .suppressed }

/-- A user actor as `ActorHandler::run` drives it: the outcome of
`handle_envelope` per event, of `on_error` per error, of the n-th `step()`
call, and of the lifecycle hooks (src/maiko/src/actor.rs). -/
structure ActorModel (E : Type) where
  handleEvent : E → Except MError Unit
  onError : MError → Except MError Unit
  stepResult : Nat → Except MError StepAction
  onStart : Except MError Unit
  onShutdown : Except MError Unit

/-- `ActorHandler::handle_error` (actor_handler.rs:140-146): on an error run
the user's `on_error`; its error, if any, propagates. -/
def handleError (a : ActorModel E) : Except MError Unit → Except MError Unit
  | .ok _ => .ok ()
  | .error e =>
    match a.onError e with
    | .ok _ => .ok ()
    | .error e2 => .error e2

/-- One resolution of the biased select in `ActorHandler::run`
(actor_handler.rs:70-134): the cancellation token fires, the mailbox yields
an envelope (with the backlog that `try_recv` will then drain), or the armed
step future completes. -/
inductive SelectBranch (E : Type) where
  | cancelled
  | recv (e : E) (queued : List E)
  | stepComplete
deriving Repr, DecidableEq

/-- Observable outcome of a controller run: the envelopes passed to
`handle_envelope` in order, the number of completed `step()` calls, the
value `run` returned (`none` while the loop is still live), and whether
`on_shutdown` was reached. -/
structure CtrlRun (E : Type) where
  handled : List E
  stepCalls : Nat
  exitResult : Option (Except MError Unit)
  shutdownCalled : Bool

/-- The `try_recv` drain of the mailbox branch (actor_handler.rs:84-92):
`cnt` starts at 1 for the envelope received by `recv`; after each drained
envelope `cnt` is incremented and the loop breaks when `cnt ==
max_events_per_tick`. Returns the envelopes handled and the error that
aborted the loop, if any. -/
def drainLoop (a : ActorModel E) (maxEvents : Nat) :
    Nat → List E → List E × Option MError
  | _, [] => ([], Option.none)
  | cnt, e :: rest =>
    match handleError a (a.handleEvent e) with
    | .error err => ([e], some err)
    | .ok _ =>
      if cnt + 1 == maxEvents then
        ([e], Option.none)
      else
        let r := drainLoop a maxEvents (cnt + 1) rest
        (e :: r.1, r.2)

/-- The select loop of `ActorHandler::run` (actor_handler.rs:69-135), driven
by a schedule of branch resolutions. The cancellation branch drops the step
future, stops the context and breaks to `on_shutdown`; the mailbox branch
handles one envelope then drains; the step branch (actor_handler.rs:98-113)
discards the completed `step()` result and re-arms the step future
unconditionally. An error escaping `handle_error` leaves `run` through `?`,
skipping the trailing `on_shutdown`. -/
def runLoop (a : ActorModel E) (maxEvents : Nat) :
    List (SelectBranch E) → List E → Nat → CtrlRun E
  | [], handled, steps => ⟨handled, steps, Option.none, false⟩
  | .cancelled :: _, handled, steps => ⟨handled, steps, some a.onShutdown, true⟩
  | .recv e queued :: rest, handled, steps =>
    match handleError a (a.handleEvent e) with
    | .error err => ⟨handled ++ [e], steps, some (.error err), false⟩
    | .ok _ =>
      let d := drainLoop a maxEvents 1 queued
      match d.2 with
      | some err => ⟨handled ++ e :: d.1, steps, some (.error err), false⟩
      | Option.none => runLoop a maxEvents rest (handled ++ e :: d.1) steps
  | .stepComplete :: rest, handled, steps =>
    runLoop a maxEvents rest handled (steps + 1)

/-- `ActorHandler::run` (actor_handler.rs:46-138): `on_start` first — its
error also leaves through `?` before the loop — then the select loop. -/
def runController (a : ActorModel E) (maxEvents : Nat)
    (sched : List (SelectBranch E)) : CtrlRun E :=
  match a.onStart with
  | .error err => ⟨[], 0, some (.error err), false⟩
  | .ok _ => runLoop a maxEvents sched [] 0

/-- A purely reactive actor: every `step()` call returns `Never` (the trait
default), events and hooks all succeed. -/
def reactiveActor : ActorModel Nat :=
  ⟨fun _ => .ok (), fun e => .error e, fun _ => .ok .never, .ok (), .ok ()⟩

/-- An actor whose handler fails and whose `on_error` escalates to a
distinct error. -/
def escalatingActor : ActorModel Nat :=
  ⟨fun _ => .error (.external 0),
   fun _ => .error (.external 1),
   fun _ => .ok .never, .ok (), .ok ()⟩

/-- An actor whose handler fails but whose `on_error` swallows the error. -/
def swallowingActor : ActorModel Nat :=
  ⟨fun _ => .error (.external 0),
   fun _ => .ok (),
   fun _ => .ok .never, .ok (), .ok ()⟩

end Maiko

/-- C3: evaluation at the failing input. The reactive actor's first `step()`
call returns `Never`, yet when the select loop's step branch fires twice the
controller performs a second `step()` call: the run loop discards the
returned `StepAction` and re-arms the step future unconditionally
(actor_handler.rs:98-113). The in-file machinery the claim describes does
exist — `handle_step_action` maps `Never` to `Suppressed`, under which
`can_step` is false — but the loop never invokes it. -/
theorem C3_step_called_again_after_never :
    Maiko.reactiveActor.stepResult 0 = .ok .never ∧
    (Maiko.runController Maiko.reactiveActor 10
      [.stepComplete, .stepComplete]).stepCalls = 2 ∧
    (Maiko.handleStepAction ⟨Option.none, .none⟩ .never).pause = .suppressed ∧
    (Maiko.handleStepAction ⟨Option.none, .none⟩ .never).canStep = false := by
  refine ⟨rfl, rfl, rfl, rfl⟩

/-- C5: evaluation at the failing input. With `max_events_per_tick = 1` a
wake-up that receives envelope 0 with envelopes 1 and 2 queued handles all
three: the drain's break condition `cnt == max_events_per_tick` is tested
only after `cnt` has been incremented past 1, so for the value 1 it never
fires and the whole backlog is drained. With `max_events_per_tick = 2` the
bound works as claimed (first envelope plus one more). -/
theorem C5_max_one_drains_whole_backlog :
    (Maiko.runController Maiko.reactiveActor 1 [.recv 0 [1, 2]]).handled
      = [0, 1, 2] ∧
    (Maiko.runController Maiko.reactiveActor 2 [.recv 0 [1, 2]]).handled
      = [0, 1] := by
  refine ⟨rfl, rfl⟩

/-- C6: evaluation at the failing input. When `handle_event` fails and
`on_error` returns its own error, the controller exits with that error — but
`on_shutdown` is never reached, because `handle_error(..)?` returns from
`run` before the trailing `on_shutdown` call (actor_handler.rs:82,137). The
swallow path works as claimed: `on_error` returning `Ok` lets the loop
continue, and a later cancellation still reaches `on_shutdown`. -/
theorem C6_error_escalation_skips_on_shutdown :
    (Maiko.runController Maiko.escalatingActor 10 [.recv 0 []]).exitResult
      = some (.error (.external 1)) ∧
    (Maiko.runController Maiko.escalatingActor 10 [.recv 0 []]).shutdownCalled
      = false ∧
    (Maiko.runController Maiko.swallowingActor 10
      [.recv 0 [], .recv 1 [], .cancelled]).handled = [0, 1] ∧
    (Maiko.runController Maiko.swallowingActor 10
      [.recv 0 [], .recv 1 [], .cancelled]).shutdownCalled = true := by
  refine ⟨rfl, rfl, rfl, rfl⟩

namespace Maiko

/-- `MonitorEntry` (src/maiko/src/monitoring/dispatcher.rs:18-30): a
registered monitor with its pause flag (the observer object itself plays no
role in the activity flag). -/
structure MonitorEntry where
  paused : Bool
deriving Repr, DecidableEq

/-- The `MonitorDispatcher` state the registration commands touch
(dispatcher.rs:32-39): the id-keyed monitor map (as an association list in
insertion order), the id counter, and the shared `is_active` flag. -/
structure DispatcherState where
  monitors : List (Nat × MonitorEntry)
  lastId : Nat
  isActive : Bool
deriving Repr, DecidableEq

/-- The registration commands of `MonitorCommand`
(src/maiko/src/monitoring/command.rs) handled by
`MonitorDispatcher::handle_command`. -/
inductive MonitorCommand where
  | addMonitor
  | removeMonitor (id : Nat)
  | pauseAll
  | resumeAll
  | pauseOne (id : Nat)
  | resumeOne (id : Nat)
deriving Repr, DecidableEq

/-- `self.monitors.values().any(|m| !m.paused)` (dispatcher.rs:58). -/
def activeOf (ms : List (Nat × MonitorEntry)) : Bool :=
  ms.any (fun p => !p.2.paused)

/-- `MonitorDispatcher::update_is_active` (dispatcher.rs:57-60). -/
def updateIsActive (st : DispatcherState) : DispatcherState :=
  { st with isActive := activeOf st.monitors }

/-- `MonitorDispatcher::set_monitor_paused` (dispatcher.rs:67-72): the flag is
recomputed only when the id is registered; an unknown id changes nothing. -/
def setMonitorPaused (st : DispatcherState) (id : Nat) (paused : Bool) :
    DispatcherState :=
  if st.monitors.any (fun p => p.1 == id) then
    updateIsActive
      { st with
        monitors := st.monitors.map
            (fun p => if p.1 == id then (p.1, ⟨paused⟩) else p) }
  else
    st

/-- `MonitorDispatcher::handle_command` (dispatcher.rs:94-124) restricted to
the registration commands: add (fresh id, unpaused), remove, pause/resume all
or one; each recomputes `is_active` except a pause/resume of an unknown id. -/
def handleCommand (st : DispatcherState) : MonitorCommand → DispatcherState
  | .addMonitor =>
    updateIsActive
      { st with
        monitors := st.monitors ++ [(st.lastId, ⟨false⟩)],
        lastId := st.lastId + 1 }
  | .removeMonitor id =>
    updateIsActive { st with monitors := st.monitors.filter (fun p => !(p.1 == id)) }
  | .pauseAll =>
    updateIsActive { st with monitors := st.monitors.map (fun p => (p.1, ⟨true⟩)) }
  | .resumeAll =>
    updateIsActive { st with monitors := st.monitors.map (fun p => (p.1, ⟨false⟩)) }
  | .pauseOne id => setMonitorPaused st id true
  | .resumeOne id => setMonitorPaused st id false

end Maiko

/-- C7: the `is_active` invariant. If before a command the shared flag agrees
with "some registered monitor is not paused", it still agrees after
`handle_command` processes any of the six registration commands: every
monitor-changing path recomputes the flag via `update_is_active`, and the
only path that skips the recomputation (pause/resume of an unknown id)
leaves the monitor table untouched. -/
theorem C7_is_active_iff_some_unpaused (st : Maiko.DispatcherState)
    (cmd : Maiko.MonitorCommand)
    (h : st.isActive = Maiko.activeOf st.monitors) :
    (Maiko.handleCommand st cmd).isActive =
      Maiko.activeOf (Maiko.handleCommand st cmd).monitors := by
  cases cmd with
  | addMonitor => simp [Maiko.handleCommand, Maiko.updateIsActive]
  | removeMonitor id => simp [Maiko.handleCommand, Maiko.updateIsActive]
  | pauseAll => simp [Maiko.handleCommand, Maiko.updateIsActive]
  | resumeAll => simp [Maiko.handleCommand, Maiko.updateIsActive]
  | pauseOne id =>
    by_cases hmem : st.monitors.any (fun p => p.1 == id) = true
    · simp [Maiko.handleCommand, Maiko.setMonitorPaused, hmem, Maiko.updateIsActive]
    · simp [Maiko.handleCommand, Maiko.setMonitorPaused, hmem, h]
  | resumeOne id =>
    by_cases hmem : st.monitors.any (fun p => p.1 == id) = true
    · simp [Maiko.handleCommand, Maiko.setMonitorPaused, hmem, Maiko.updateIsActive]
    · simp [Maiko.handleCommand, Maiko.setMonitorPaused, hmem, h]

/-- Witness for C7: a state with one unpaused monitor and a correct flag keeps
a correct flag across a `PauseOne` addressed to an unknown id — the only
command path that does not recompute the flag. -/
theorem C7_witness :
    (⟨[(0, ⟨false⟩)], 1, true⟩ : Maiko.DispatcherState).isActive =
      Maiko.activeOf (⟨[(0, ⟨false⟩)], 1, true⟩ : Maiko.DispatcherState).monitors ∧
    (Maiko.handleCommand ⟨[(0, ⟨false⟩)], 1, true⟩ (.pauseOne 5)).isActive =
      Maiko.activeOf
        (Maiko.handleCommand ⟨[(0, ⟨false⟩)], 1, true⟩ (.pauseOne 5)).monitors :=
  ⟨by decide, C7_is_active_iff_some_unpaused ⟨[(0, ⟨false⟩)], 1, true⟩
    (.pauseOne 5) (by decide)⟩

namespace Maiko

/-- `EventEntry` as the chain queries use it
(src/maiko/src/testing/event_entry.rs and event_chain.rs): one record per
(envelope, receiver) delivery. -/
structure EventEntry (E T : Type) where
  envelope : Envelope E
  topic : T
  receiver : ActorId
deriving Repr, DecidableEq

/-- `EventEntry::id`. -/
def EventEntry.id (e : EventEntry E T) : Nat := e.envelope.id

/-- `entry.meta().correlation_id()`. -/
def EventEntry.correlation (e : EventEntry E T) : Option Nat :=
  e.envelope.correlation

/-- `entry.meta().actor_id()`, the sender. -/
def EventEntry.sender (e : EventEntry E T) : ActorId := e.envelope.sender

/-- The `event_correlations` map of `EventChain::new` (event_chain.rs:49-54):
id → correlation of the first record carrying that id, kept here in first
appearance order. -/
def eventCorrAux (acc : List (Nat × Option Nat)) :
    List (EventEntry E T) → List (Nat × Option Nat)
  | [] => acc
  | e :: rest =>
    if acc.any (fun p => p.1 == e.id) then
      eventCorrAux acc rest
    else
      eventCorrAux (acc ++ [(e.id, e.correlation)]) rest

def eventCorrelations (records : List (EventEntry E T)) :
    List (Nat × Option Nat) :=
  eventCorrAux [] records

/-- The worklist of `EventChain::new` (event_chain.rs:56-69). The Rust queue
is a `Vec` popped from the back, modelled with the head as the top of the
stack; children of the current node are the not-yet-seen ids whose
correlation equals it (the source iterates a `HashMap` here, so only the set
of children per node — and hence the child counts — is determined; the
embedding fixes first-record order). -/
def chainGo (corrs : List (Nat × Option Nat)) :
    Nat → List Nat → List Nat → List (Nat × List Nat) →
    List Nat × List (Nat × List Nat)
  | 0, _, chainIds, childMap => (chainIds, childMap)
  | _ + 1, [], chainIds, childMap => (chainIds, childMap)
  | fuel + 1, cur :: stack, chainIds, childMap =>
    let news := corrs.filterMap (fun p =>
      if p.2 == some cur && !(chainIds.contains p.1) then some p.1
      else Option.none)
    chainGo corrs fuel (news.reverse ++ stack) (chainIds ++ news)
      (if news.isEmpty then childMap else childMap ++ [(cur, news)])

/-- `EventChain::new` (event_chain.rs:43-77): the set of chain ids and the
parent → children map, grown from the root by correlation edges. -/
def buildChain (records : List (EventEntry E T)) (root : Nat) :
    List Nat × List (Nat × List Nat) :=
  let corrs := eventCorrelations records
  chainGo corrs (corrs.length + 1) [root] [root] []

/-- `EventChain::chain_entries` (event_chain.rs:205-209): the records filtered
to the chain ids, in record order. -/
def chainEntries (records : List (EventEntry E T)) (root : Nat) :
    List (EventEntry E T) :=
  records.filter (fun e => (buildChain records root).1.contains e.id)

/-- `self.children_map.get(&id)` of a built chain. -/
def childrenOf (records : List (EventEntry E T)) (root : Nat) (id : Nat) :
    Option (List Nat) :=
  ((buildChain records root).2.find? (fun p => p.1 == id)).map (fun p => p.2)

/-- The scan of `EventChain::diverges_after` (event_chain.rs:93-107): walk the
chain entries in order; at a matching entry, return `children.len() > 1` when
the entry's id is present in the children map, otherwise keep scanning. -/
def divergesGo (childMap : List (Nat × List Nat)) (m : EventEntry E T → Bool) :
    List (EventEntry E T) → Bool
  | [] => false
  | e :: rest =>
    if m e then
      match childMap.find? (fun p => p.1 == e.id) with
      | some p => decide (p.2.length > 1)
      | Option.none => divergesGo childMap m rest
    else
      divergesGo childMap m rest

/-- `EventChain::diverges_after` (event_chain.rs:93-107). -/
def divergesAfter (records : List (EventEntry E T)) (root : Nat)
    (m : EventEntry E T → Bool) : Bool :=
  divergesGo (buildChain records root).2 m (chainEntries records root)

/-- `EventChain::branches_after` (event_chain.rs:110-122): child count at the
first matching entry (0 when absent from the children map). -/
def branchesGo (childMap : List (Nat × List Nat)) (m : EventEntry E T → Bool) :
    List (EventEntry E T) → Nat
  | [] => 0
  | e :: rest =>
    if m e then
      match childMap.find? (fun p => p.1 == e.id) with
      | some p => p.2.length
      | Option.none => 0
    else
      branchesGo childMap m rest

def branchesAfter (records : List (EventEntry E T)) (root : Nat)
    (m : EventEntry E T → Bool) : Nat :=
  branchesGo (buildChain records root).2 m (chainEntries records root)

/-- The reading of C8 as the claim states it: the first entry of the chain
(in record order) that matches the matcher has more than one child. -/
def firstMatchDiverges (records : List (EventEntry E T)) (root : Nat)
    (m : EventEntry E T → Bool) : Bool :=
  match (chainEntries records root).find? m with
  | some e =>
    match childrenOf records root e.id with
    | some l => decide (l.length > 1)
    | Option.none => false
  | Option.none => false

/-- `self.children_map.get(&cur)` lookup used by the traversals. -/
def childMapFind (childMap : List (Nat × List Nat)) (cur : Nat) :
    Option (List Nat) :=
  (childMap.find? (fun p => p.1 == cur)).map (fun p => p.2)

/-- `EventChain::ordered_entries` (event_chain.rs:212-239): traversal from the
root with a `Vec` popped from the back, skipping visited ids, collecting each
id's records in record order before pushing its children. -/
def orderedGo (records : List (EventEntry E T)) (chainIds : List Nat)
    (childMap : List (Nat × List Nat)) :
    Nat → List Nat → List Nat → List (EventEntry E T)
  | 0, _, _ => []
  | _ + 1, [], _ => []
  | fuel + 1, cur :: stack, visited =>
    if visited.contains cur then
      orderedGo records chainIds childMap fuel stack visited
    else
      let entries := records.filter
        (fun e => chainIds.contains e.id && e.id == cur)
      let children := (childMapFind childMap cur).getD []
      entries ++ orderedGo records chainIds childMap fuel
        (children.reverse ++ stack) (visited ++ [cur])

def orderedEntries (records : List (EventEntry E T)) (root : Nat) :
    List (EventEntry E T) :=
  orderedGo records (buildChain records root).1 (buildChain records root).2
    (records.length + 1) [root] []

/-- `EventChain::root_sender` (event_chain.rs:197-202). -/
def rootSender (records : List (EventEntry E T)) (root : Nat) :
    Option ActorId :=
  (records.find? (fun e => e.id == root)).map (fun e => e.sender)

/-- The `seen.insert` dedup of `ActorFlow::ordered` (actor_flow.rs:35-55):
an actor is appended only when no pointer-equal actor is present. -/
def pushUnique (seen : List ActorId) (a : ActorId) : List ActorId :=
  if seen.any (fun x => x.ptrEq a) then seen else seen ++ [a]

/-- `ActorFlow::ordered` (actor_flow.rs:35-55): the root sender first, then
the receivers in traversal order, each actor listed once. -/
def orderedActors (records : List (EventEntry E T)) (root : Nat) :
    List ActorId :=
  ((orderedEntries records root).map EventEntry.receiver).foldl pushUnique
    (match rootSender records root with
     | some a => [a]
     | Option.none => [])

/-- `ActorFlow::exactly` (actor_flow.rs:85-91): same length and pointwise
`ActorId` equality (`Arc::ptr_eq`) against the ordered participation list. -/
def exactlyActors (records : List (EventEntry E T)) (root : Nat)
    (actors : List ActorId) : Bool :=
  let ordered := orderedActors records root
  if ordered.length != actors.length then false
  else (ordered.zip actors).all (fun p => p.1.ptrEq p.2)

end Maiko

namespace Maiko

/-- The scan of `diverges_after`, characterised by `List.find?`: the result is
decided at the first entry that matches the matcher AND is present in the
children map; matching entries without children are skipped. -/
theorem divergesGo_eq_find (childMap : List (Nat × List Nat))
    (m : EventEntry E T → Bool) (l : List (EventEntry E T)) :
    divergesGo childMap m l =
      (match l.find? (fun e => m e && (childMapFind childMap e.id).isSome) with
       | some e => decide (((childMapFind childMap e.id).getD []).length > 1)
       | Option.none => false) := by
  induction l with
  | nil => rfl
  | cons e rest ih =>
    rcases hm : m e with _ | _
    · simp only [divergesGo, hm, Bool.false_eq_true, if_false, List.find?,
        Bool.false_and]
      exact ih
    · rcases hc : childMap.find? (fun p => p.1 == e.id) with _ | p
      · simp only [divergesGo, hm, if_true, hc, List.find?, childMapFind,
          Bool.true_and, Option.map_none, Option.isSome_none]
        exact ih
      · simp [divergesGo, hm, hc, List.find?, childMapFind]

/-- Participants in the C8 counterexample. -/
def aCex : ActorId := ⟨0, "alpha"⟩

def bCex : ActorId := ⟨1, "beta"⟩

/-- The C8 counterexample record set: root event 1 ("A") has children 2 and 3,
both labelled "X"; event 2 is childless while event 3 has the two children 4
and 5. The first chain entry matching "X" is therefore event 2, which has no
children. -/
def cexRecords : List (EventEntry String Unit) :=
  [⟨⟨1, aCex, Option.none, "A"⟩, (), bCex⟩,
   ⟨⟨2, bCex, some 1, "X"⟩, (), bCex⟩,
   ⟨⟨3, bCex, some 1, "X"⟩, (), bCex⟩,
   ⟨⟨4, bCex, some 3, "B"⟩, (), aCex⟩,
   ⟨⟨5, bCex, some 3, "C"⟩, (), aCex⟩]

/-- The label matcher for "X" over the counterexample records. -/
def mX : EventEntry String Unit → Bool := fun e => e.envelope.event == "X"

end Maiko

/-- C8 counterexample: on `cexRecords` the first chain entry matching "X" is
event 2, which has no children — so the claim ("true iff the first matching
event has more than one child") predicts `false` — yet `diverges_after`
returns `true`, because its scan skips matching events that are absent from
the children map and settles on event 3 with two children. -/
theorem C8_counterexample_first_match_skipped :
    Maiko.divergesAfter Maiko.cexRecords 1 Maiko.mX = true ∧
    Maiko.firstMatchDiverges Maiko.cexRecords 1 Maiko.mX = false ∧
    (Maiko.chainEntries Maiko.cexRecords 1).find? Maiko.mX =
      some ⟨⟨2, Maiko.bCex, some 1, "X"⟩, (), Maiko.bCex⟩ ∧
    Maiko.childrenOf Maiko.cexRecords 1 2 = Option.none := by
  refine ⟨by decide, by decide, by decide, by decide⟩

/-- C8 amended: for every record set, root and matcher, `diverges_after`
returns true iff the first chain entry (in record order) that matches the
matcher and has at least one child in the correlation tree has more than one
child; matching entries with no recorded children are skipped, and the
result is false when no matching entry has children. -/
theorem C8_amended_diverges_after (records : List (Maiko.EventEntry E T))
    (root : Nat) (m : Maiko.EventEntry E T → Bool) :
    Maiko.divergesAfter records root m =
      (match (Maiko.chainEntries records root).find?
          (fun e => m e && (Maiko.childrenOf records root e.id).isSome) with
       | some e =>
         decide (((Maiko.childrenOf records root e.id).getD []).length > 1)
       | Option.none => false) :=
  Maiko.divergesGo_eq_find (Maiko.buildChain records root).2 m
    (Maiko.chainEntries records root)

namespace Maiko

/-- Actor α of the S5 correlation-chain scenario. -/
def alphaS5 : ActorId := ⟨0, "alpha"⟩

/-- Actor β of the S5 correlation-chain scenario. -/
def betaS5 : ActorId := ⟨1, "beta"⟩

/-- Actor γ of the S5 correlation-chain scenario. -/
def gammaS5 : ActorId := ⟨2, "gamma"⟩

/-- The S5 record set: α sends Start (id 1) to β; β sends Process (id 2,
correlation 1) to γ; γ sends Complete (id 3, correlation 2) to α. The
`ActorId`s in the records are clones of the registration handles, so pointer
equality holds between a record's actor and the handle. -/
def s5Records : List (EventEntry String Unit) :=
  [⟨⟨1, alphaS5, Option.none, "Start"⟩, (), betaS5⟩,
   ⟨⟨2, betaS5, some 1, "Process"⟩, (), gammaS5⟩,
   ⟨⟨3, gammaS5, some 2, "Complete"⟩, (), alphaS5⟩]

end Maiko

/-- C9 counterexample: on the S5 record set the ordered participation list is
[α, β, γ] — `ActorFlow::ordered` lists each actor once, so α, already present
as the root sender, is not repeated when it receives Complete — and hence
`exactly([α, β, γ, α])` is false (length 3 vs 4), contradicting the claim. -/
theorem C9_counterexample_exactly_with_repeat_fails :
    Maiko.exactlyActors Maiko.s5Records 1
      [Maiko.alphaS5, Maiko.betaS5, Maiko.gammaS5, Maiko.alphaS5] = false ∧
    Maiko.orderedActors Maiko.s5Records 1 =
      [Maiko.alphaS5, Maiko.betaS5, Maiko.gammaS5] := by
  refine ⟨by decide, by decide⟩

/-- C9 amended: for the S5 record set the chain built from Start's id
satisfies `actors().exactly([α, β, γ]) == true` — the ordered participation
list is exactly α, β, γ, with each participant listed once and the repeat
visit to α deduplicated. -/
theorem C9_amended_exactly_deduplicated :
    Maiko.exactlyActors Maiko.s5Records 1
      [Maiko.alphaS5, Maiko.betaS5, Maiko.gammaS5] = true := by
  decide
